import Mathlib

/-!
A shallow embedding of the CallSense pipeline (src/models.py, src/agents.py,
src/graph.py, src/app.py) and proofs about the claims of its specification.

Python values that flow through the pipeline (parsed JSON from model
responses, dictionary fields) are modelled by the inductive `Json`.
A model response is `Option Json`: `none` means `json.loads` raised on the
response text, `some j` means it parsed to the value `j`.  Each model call
made by an agent is an `LLMOutcome`: either the invocation layer raised an
exception (which propagates out of the agent into the node wrapper), or the
call returned content with the given parse result.  An `Oracle` fixes the
outcome of the (at most one) model call of each of the four prompted stages
for one run of the pipeline.
-/

/-- Python/JSON values threaded through the pipeline. -/
inductive Json where
  | null : Json
  | bool (b : Bool) : Json
  | num (q : ℚ) : Json
  | str (s : String) : Json
  | arr (xs : List Json) : Json
  | obj (fields : List (String × Json)) : Json

/-- Python truthiness (`if x:`) of a value, used by `graph.py` in
`if not intake_data["is_valid"]`, in the conditional edge and in
`if result.get("error")`. -/
def truthy : Json → Bool
  | .null => false
  | .bool b => b
  | .num q => decide (q ≠ 0)
  | .str s => decide (s ≠ "")
  | .arr xs => !xs.isEmpty
  | .obj fs => !fs.isEmpty

/-- Model of `d.get(key, default)` on a parsed JSON object (Python dict). -/
def jget (fs : List (String × Json)) (k : String) (dflt : Json) : Json :=
  match fs.lookup k with
  | some v => v
  | none => dflt

/-- View a value as a Python dict; a `.get` on anything else raises
`AttributeError`, modelled by `none`. -/
def asObj : Json → Option (List (String × Json))
  | .obj fs => some fs
  | _ => none

/-- Validation of a `str` field (pydantic): only a string is accepted. -/
def asStr : Json → Option String
  | .str s => some s
  | _ => none

/-- Validation of a `List[str]` field (pydantic): a JSON array whose
elements are all strings. -/
def strList? : Json → Option (List String)
  | .arr xs => xs.mapM asStr
  | _ => none

/-- Plain decimal literal read as a rational: optional sign, an integer
part and an optional fraction part.  Models the numeric strings accepted
by Python `float()` (exotic forms such as exponents are not modelled). -/
def parseDecimal? (s : String) : Option ℚ :=
  let t := s.trim
  let (sgn, u) : ℚ × String :=
    if t.startsWith "-" then (-1, t.drop 1)
    else if t.startsWith "+" then (1, t.drop 1) else (1, t)
  match u.splitOn "." with
  | [w] => (w.toNat?).map (fun n => sgn * n)
  | [w, f] =>
    match w.toNat?, f.toNat? with
    | some n, some m => some (sgn * ((n : ℚ) + (m : ℚ) / (10 : ℚ) ^ f.length))
    | _, _ => none
  | _ => none

/-- Python `float(x)` on a pipeline value: numbers pass through, booleans
become 0 or 1, numeric strings are read, everything else raises (`none`). -/
def pyFloat? : Json → Option ℚ
  | .num q => some q
  | .bool b => some (if b then 1 else 0)
  | .str s => parseDecimal? s
  | _ => none

/-- Validation of an `int` field (pydantic): an integral number, or a
string of digits; other values are rejected. -/
def pyInt? : Json → Option Int
  | .num q => if q.den = 1 then some q.num else none
  | .str s => s.toInt?
  | _ => none

/-! ## Data model (src/models.py) -/

/-- Enum `SentimentType` of src/models.py. -/
inductive SentimentType where
  | positive | neutral | negative
deriving DecidableEq, Repr

/-- The string value of a `SentimentType` member. -/
def SentimentType.value : SentimentType → String
  | .positive => "positive"
  | .neutral => "neutral"
  | .negative => "negative"

/-- Model of `SentimentType(x)` on a pipeline value: the member with that string
value, `none` when the call raises `ValueError`. -/
def SentimentType.ofJson : Json → Option SentimentType
  | .str "positive" => some .positive
  | .str "neutral" => some .neutral
  | .str "negative" => some .negative
  | _ => none

/-- Enum `CallCategory` of src/models.py. -/
inductive CallCategory where
  | complaint | inquiry | technical_support | billing | general
deriving DecidableEq, Repr

/-- The string value of a `CallCategory` member. -/
def CallCategory.value : CallCategory → String
  | .complaint => "complaint"
  | .inquiry => "inquiry"
  | .technical_support => "technical_support"
  | .billing => "billing"
  | .general => "general"

/-- Model of `CallCategory(x)` on a pipeline value, `none` when it raises. -/
def CallCategory.ofJson : Json → Option CallCategory
  | .str "complaint" => some .complaint
  | .str "inquiry" => some .inquiry
  | .str "technical_support" => some .technical_support
  | .str "billing" => some .billing
  | .str "general" => some .general
  | _ => none

/-- Record `CallTranscript` of src/models.py. -/
structure CallTranscript where
  text : String
  speaker_count : Option Int
  duration : Option String
deriving DecidableEq, Repr

/-- Record `CallSummary` of src/models.py. -/
structure CallSummary where
  key_points : List String
  customer_issue : String
  resolution : String
  sentiment : SentimentType
  category : CallCategory
  action_items : List String
deriving DecidableEq, Repr

/-- Record `QAScore` of src/models.py: five scores, each pydantic-constrained to
`0 ≤ _ ≤ 10`. -/
structure QAScore where
  empathy : ℚ
  professionalism : ℚ
  resolution : ℚ
  compliance : ℚ
  overall : ℚ
deriving DecidableEq, Repr

/-- The pydantic constructor of `QAScore`: construction raises (`none`)
unless every field lies in the closed interval `[0, 10]`. -/
def QAScore.mk? (e p r c o : ℚ) : Option QAScore :=
  if 0 ≤ e ∧ e ≤ 10 ∧ 0 ≤ p ∧ p ≤ 10 ∧ 0 ≤ r ∧ r ≤ 10 ∧
     0 ≤ c ∧ c ≤ 10 ∧ 0 ≤ o ∧ o ≤ 10 then
    some ⟨e, p, r, c, o⟩
  else
    none

/-- Record `CallAnalysis` of src/models.py: the terminal artifact, all parts
required. -/
structure CallAnalysis where
  transcript : CallTranscript
  summary : CallSummary
  qa_scores : QAScore
  recommendations : List String
  tags : List String
deriving DecidableEq, Repr

/-! ## Agents (src/agents.py) -/

/-- The dict returned by `CallIntakeAgent.process`.  The values of
`is_valid`, `reason` and `estimated_speakers` are whatever the parsed
model response held (no validation is applied to them at this stage), so
they are kept as `Json`. -/
structure IntakeData where
  is_valid : Json
  reason : Json
  estimated_speakers : Json
  transcript : String

namespace CallIntakeAgent

/-- Embedding of `CallIntakeAgent.process` after the model call returned and parsing
was attempted.  On a parsed object, fields are read with `.get` and the
documented defaults; on a parse failure, or a parsed value that is not a
dict (where `.get` raises inside the bare `except`), the fallback dict is
returned. -/
def process (rawInput : String) (resp : Option Json) : IntakeData :=
  match resp with
  | some (.obj fs) =>
    { is_valid := jget fs "is_valid" (.bool true)
      reason := jget fs "reason" (.str "Valid transcript")
      estimated_speakers := jget fs "estimated_speakers" (.num 2)
      transcript := rawInput }
  | _ =>
    { is_valid := .bool true
      reason := .str "Transcript accepted"
      estimated_speakers := .num 2
      transcript := rawInput }

end CallIntakeAgent

namespace TranscriptionAgent

/-- Embedding of `TranscriptionAgent.process`: a pure reshape with no model call.
`CallTranscript` is constructed from `intake_data["transcript"]` and
`intake_data.get("estimated_speakers", 2)`; pydantic validation of the
`Optional[int]` speaker count can raise (`none`). -/
def process (d : IntakeData) : Option CallTranscript :=
  match d.estimated_speakers with
  | .null => some ⟨d.transcript, none, none⟩
  | v => (pyInt? v).map (fun n => ⟨d.transcript, some n, none⟩)

end TranscriptionAgent

namespace SummarizationAgent

/-- The hard-coded fallback summary of `SummarizationAgent.process`. -/
def fallback : CallSummary :=
  { key_points := ["Summary generation failed - using fallback"]
    customer_issue := "Unable to parse"
    resolution := "Unable to parse"
    sentiment := .neutral
    category := .general
    action_items := [] }

/-- The body of the `try` block of `SummarizationAgent.process`: read each
field with its `.get` default, build the enum members, validate with
pydantic.  `none` when any step raises. -/
def decode (resp : Option Json) : Option CallSummary :=
  resp.bind fun j =>
  (asObj j).bind fun fs =>
  (strList? (jget fs "key_points" (.arr [.str "No key points extracted"]))).bind fun kp =>
  (asStr (jget fs "customer_issue" (.str "Not identified"))).bind fun ci =>
  (asStr (jget fs "resolution" (.str "Not specified"))).bind fun res =>
  (SentimentType.ofJson (jget fs "sentiment" (.str "neutral"))).bind fun sent =>
  (CallCategory.ofJson (jget fs "category" (.str "general"))).bind fun cat =>
  (strList? (jget fs "action_items" (.arr []))).bind fun ai =>
  some ⟨kp, ci, res, sent, cat, ai⟩

/-- Embedding of `SummarizationAgent.process` after the model call returned: the
decoded summary, or the fallback when decoding raised. -/
def process (resp : Option Json) : CallSummary :=
  (decode resp).getD fallback

end SummarizationAgent

namespace QualityScoringAgent

/-- The hard-coded fallback scores of `QualityScoringAgent.process`. -/
def fallback : QAScore := ⟨7, 7, 7, 7, 7⟩

/-- The body of the `try` block of `QualityScoringAgent.process`: read
each score with default `7.0`, convert with `float(...)`, then construct
`QAScore` (whose pydantic bounds can raise).  `none` when any step
raises. -/
def decode (resp : Option Json) : Option QAScore :=
  resp.bind fun j =>
  (asObj j).bind fun fs =>
  (pyFloat? (jget fs "empathy" (.num 7))).bind fun e =>
  (pyFloat? (jget fs "professionalism" (.num 7))).bind fun p =>
  (pyFloat? (jget fs "resolution" (.num 7))).bind fun r =>
  (pyFloat? (jget fs "compliance" (.num 7))).bind fun c =>
  (pyFloat? (jget fs "overall" (.num 7))).bind fun o =>
  QAScore.mk? e p r c o

/-- Embedding of `QualityScoringAgent.process` after the model call returned. -/
def process (resp : Option Json) : QAScore :=
  (decode resp).getD fallback

end QualityScoringAgent

namespace RoutingAgent

/-- Embedding of `RoutingAgent.process` after the model call returned.  The returned
pair is `(recommendations, tags)`, kept as raw values because the agent
returns a plain dict with no validation; the fallback tags incorporate
the summary category and sentiment values. -/
def process (summary : CallSummary) (resp : Option Json) : Json × Json :=
  match resp with
  | some (.obj fs) =>
    (jget fs "recommendations" (.arr [.str "Continue current approach"]),
     jget fs "tags" (.arr [.str summary.category.value, .str summary.sentiment.value]))
  | _ =>
    (.arr [.str "Review call quality", .str "Follow up with customer"],
     .arr [.str summary.category.value, .str summary.sentiment.value,
           .str "needs_review"])

end RoutingAgent

/-! ## Orchestrator (src/graph.py) -/

/-- Outcome of one model call: the invocation layer raised (the exception
propagates out of the agent into the node wrapper), or the call returned
content whose JSON parse result is given (`none` = `json.loads` raised). -/
inductive LLMOutcome where
  | raises (msg : String)
  | returns (parsed : Option Json)

/-- The model responses of one run: each of the four prompted stages makes
at most one model call. -/
structure Oracle where
  intake : LLMOutcome
  summarize : LLMOutcome
  quality : LLMOutcome
  route : LLMOutcome

/-- Record `CallState` of src/graph.py.  Fields that start as `{}` or `None` are
`Option`s; `recommendations` and `tags` start as `[]` and receive raw
values from the routing agent, so they are `Json`. -/
structure CallState where
  raw_input : String
  intake_data : Option IntakeData
  transcript : Option CallTranscript
  summary : Option CallSummary
  qa_scores : Option QAScore
  recommendations : Json
  tags : Json
  error : Option Json

/-- The initial state built by `process_call`. -/
def initState (raw : String) : CallState :=
  { raw_input := raw
    intake_data := none
    transcript := none
    summary := none
    qa_scores := none
    recommendations := .arr []
    tags := .arr []
    error := none }

/-- Node `intake_node`: run the intake agent inside `try`, store its dict, and
set `error` to the reason value when the dict is judged invalid; an agent
exception becomes a stage-qualified error message. -/
def intake_node (o : Oracle) (s : CallState) : CallState :=
  match o.intake with
  | .raises msg => { s with error := some (.str ("Intake error: " ++ msg)) }
  | .returns resp =>
    let d := CallIntakeAgent.process s.raw_input resp
    let s1 := { s with intake_data := some d }
    if truthy d.is_valid then s1 else { s1 with error := some d.reason }

/-- Node `transcription_node`: no model call.  With `intake_data` still `{}`
(intake raised), `intake_data["transcript"]` raises `KeyError`; otherwise
pydantic validation of the speaker count can raise. -/
def transcription_node (s : CallState) : CallState :=
  match s.intake_data with
  | none => { s with error := some (.str "Transcription error: KeyError transcript") }
  | some d =>
    match TranscriptionAgent.process d with
    | some t => { s with transcript := some t }
    | none => { s with error := some (.str "Transcription error: validation error") }

/-- Node `summarization_node`: with `transcript` still `None`, the agent raises
`AttributeError` on `transcript.text` before the model call; otherwise the
model call either raises or yields a summary (decoded or fallback). -/
def summarization_node (o : Oracle) (s : CallState) : CallState :=
  match s.transcript with
  | none =>
    { s with error := some (.str "Summarization error: NoneType object has no attribute text") }
  | some _ =>
    match o.summarize with
    | .raises msg => { s with error := some (.str ("Summarization error: " ++ msg)) }
    | .returns resp => { s with summary := some (SummarizationAgent.process resp) }

/-- Node `quality_scoring_node`: the agent reads `transcript.text` then
`summary.customer_issue` while rendering the prompt, so a missing
transcript or summary raises `AttributeError` before the model call. -/
def quality_scoring_node (o : Oracle) (s : CallState) : CallState :=
  match s.transcript, s.summary with
  | none, _ =>
    { s with error := some (.str "Quality scoring error: NoneType object has no attribute text") }
  | some _, none =>
    { s with error := some (.str "Quality scoring error: NoneType object has no attribute customer_issue") }
  | some _, some _ =>
    match o.quality with
    | .raises msg => { s with error := some (.str ("Quality scoring error: " ++ msg)) }
    | .returns resp => { s with qa_scores := some (QualityScoringAgent.process resp) }

/-- Node `routing_node`: the agent reads `summary.category` then
`qa_scores.empathy` while rendering the prompt, so a missing summary or
scores raises `AttributeError` before the model call. -/
def routing_node (o : Oracle) (s : CallState) : CallState :=
  match s.summary, s.qa_scores with
  | none, _ =>
    { s with error := some (.str "Routing error: NoneType object has no attribute category") }
  | some _, none =>
    { s with error := some (.str "Routing error: NoneType object has no attribute empathy") }
  | some sm, some _ =>
    match o.route with
    | .raises msg => { s with error := some (.str ("Routing error: " ++ msg)) }
    | .returns resp =>
      let rd := RoutingAgent.process sm resp
      { s with recommendations := rd.1, tags := rd.2 }

/-- The conditional edge after `intake`:
`state.get("intake_data", {}).get("is_valid", False)` — `False` when the
dict is still `{}`, otherwise the truthiness of its `is_valid` value. -/
def intakeContinue (s : CallState) : Bool :=
  match s.intake_data with
  | none => false
  | some d => truthy d.is_valid

/-- One run of the compiled graph: `intake`, then either `END` or the
unconditional chain `transcription → summarization → quality_scoring →
routing`. -/
def runPipeline (o : Oracle) (raw : String) : CallState :=
  let s1 := intake_node o (initState raw)
  if intakeContinue s1 then
    routing_node o (quality_scoring_node o (summarization_node o (transcription_node s1)))
  else
    s1

/-- The value returned by `process_call`: a `CallAnalysis`, or an error
dict `{"error": v}`. -/
inductive PipelineResult where
  | analysis (a : CallAnalysis)
  | error (e : Json)

/-- Model of `if result.get("error")`: Python truthiness of the error field. -/
def errTruthy : Option Json → Bool
  | none => false
  | some j => truthy j

/-- The tail of `process_call` of src/graph.py: on a truthy `error` return
the error dict; otherwise construct `CallAnalysis`, whose pydantic
validation requires every part to be present (and the raw recommendation
and tag values to be lists of strings), returning a build-failure error
dict when it raises. -/
def finalize (r : CallState) : PipelineResult :=
  if errTruthy r.error then
    .error (r.error.getD .null)
  else
    match r.transcript, r.summary, r.qa_scores,
          strList? r.recommendations, strList? r.tags with
    | some t, some sm, some q, some recs, some tgs =>
      .analysis ⟨t, sm, q, recs, tgs⟩
    | _, _, _, _, _ => .error (.str "Failed to build analysis: validation error")

/-- Embedding of `process_call` of src/graph.py: build the initial state, run the
graph, and produce either the full analysis or an error dict. -/
def process_call (o : Oracle) (raw : String) : PipelineResult :=
  finalize (runPipeline o raw)

/-! ## The Analyze Call handler (src/app.py, lines 118-167) -/

/-- What the audio branch of the handler observes: saving the upload
raised, saving succeeded but transcription raised, or transcription
returned the given text. -/
inductive AudioCase where
  | saveFails (msg : String)
  | transcribeFails (msg : String)
  | transcribed (text : String)

/-- Observable effects of one press of the Analyze Call button. -/
structure HandlerTrace where
  tempCreated : Bool
  tempCleaned : Bool
  processed : Bool
deriving DecidableEq, Repr

/-- The Analyze Call button handler of src/app.py.  `audio = none` means no
audio file was uploaded and the pasted text is used.  Cleanup sites in the
source: the `except` arm of the transcription block calls
`cleanup_temp_file` when a path was recorded, and the `try/finally` around
`process_call` — which only runs inside `if transcript_to_process:` —
cleans up in its `finally`. -/
def analyzeHandler (audio : Option AudioCase) (typedText : String) : HandlerTrace :=
  match audio with
  | some (.saveFails _) =>
    -- save_uploaded_audio raised before returning a path: temp_file_path
    -- stays None, so the except arm skips cleanup; no path was recorded.
    ⟨false, false, false⟩
  | some (.transcribeFails _) =>
    -- the temp file exists and transcribe_audio raised: the except arm
    -- calls cleanup_temp_file(temp_file_path).
    ⟨true, true, false⟩
  | some (.transcribed t) =>
    if t ≠ "" then
      -- transcript_to_process is truthy: process_call runs under
      -- try/finally and the finally cleans the temp file.
      ⟨true, true, true⟩
    else
      -- transcript_to_process = "" is falsy: the processing block (and
      -- with it the only remaining cleanup site) is skipped entirely.
      ⟨true, false, false⟩
  | none =>
    if typedText ≠ "" ∧ typedText.trim ≠ "" then
      ⟨false, false, true⟩
    else
      ⟨false, false, false⟩

/-! ## Helper lemmas and concrete runs -/

/-- Appending to a non-empty string yields a non-empty string. -/
theorem append_ne_empty {p : String} (hp : p ≠ "") (m : String) : p ++ m ≠ "" := by
  intro hc
  apply hp
  have hl := congrArg String.length hc
  rw [String.length_append] at hl
  have hz : p.length = 0 := by
    have : String.length "" = 0 := rfl
    omega
  cases p with
  | mk data =>
    simp [String.length] at hz
    simp [hz]

/-- A stage-qualified error message is truthy. -/
theorem truthy_str_append {p : String} (hp : p ≠ "") (m : String) :
    truthy (.str (p ++ m)) = true := by
  simp [truthy, append_ne_empty hp m]

/-- An oracle whose intake response is unparseable JSON and whose
summarization call raises; later calls return unparseable content. -/
def oSummarizeRaises : Oracle :=
  ⟨.returns none, .raises "boom", .returns none, .returns none⟩

/-- An oracle whose intake rejects the input with an empty reason. -/
def oEmptyReason : Oracle :=
  ⟨.returns (some (.obj [("is_valid", .bool false), ("reason", .str "")])),
   .returns none, .returns none, .returns none⟩

/-- An oracle whose intake rejects the input with reason "nope". -/
def oRejectNope : Oracle :=
  ⟨.returns (some (.obj [("is_valid", .bool false), ("reason", .str "nope")])),
   .returns none, .returns none, .returns none⟩

/-- An oracle whose intake call raises. -/
def oIntakeRaises : Oracle :=
  ⟨.raises "rate limit", .returns none, .returns none, .returns none⟩

/-- An oracle for which every model response is unparseable. -/
def oAllParseFail : Oracle :=
  ⟨.returns none, .returns none, .returns none, .returns none⟩

/-! ## Claims -/

/-- C4: when the intake model response fails to parse as JSON, the intake
result is the fail-open dict — `is_valid` is `true`, the estimated speaker
count is 2, and the raw input text is preserved. -/
theorem c4_intake_parse_failure_fail_open (raw : String) :
    CallIntakeAgent.process raw none =
      { is_valid := .bool true
        reason := .str "Transcript accepted"
        estimated_speakers := .num 2
        transcript := raw } := rfl

/-- C7: transcript normalization is a pure reshape (the embedding of
`TranscriptionAgent.process` takes no oracle, mirroring that the source
makes no model call): for any intake dict with text `T` and speaker
estimate 2 it produces exactly `{text := T, speaker_count := 2,
duration := none}`. -/
theorem c7_normalization_exact (iv r : Json) (T : String) :
    TranscriptionAgent.process ⟨iv, r, .num 2, T⟩ =
      some ⟨T, some 2, none⟩ := rfl

/-- C9 (code bug): when an uploaded audio file is saved to a temp file and
transcription returns the empty string, the handler creates the temp file
but never deletes it — the only remaining cleanup site sits inside
`if transcript_to_process:`, which an empty transcription skips.  A
non-empty transcription, by contrast, is cleaned up. -/
theorem c9_temp_file_leak_on_empty_transcription :
    (analyzeHandler (some (.transcribed "")) "").tempCreated = true ∧
    (analyzeHandler (some (.transcribed "")) "").tempCleaned = false ∧
    (analyzeHandler (some (.transcribed "hello")) "").tempCleaned = true ∧
    (analyzeHandler (some (.transcribeFails "bad")) "").tempCleaned = true := by
  refine ⟨rfl, ?_, ?_, rfl⟩ <;> decide

/-- C8: the pipeline is deterministic — two runs with the same raw input
and the same model responses produce the same result. -/
theorem c8_deterministic (o₁ o₂ : Oracle) (r₁ r₂ : String)
    (ho : o₁ = o₂) (hr : r₁ = r₂) :
    process_call o₁ r₁ = process_call o₂ r₂ := by
  subst ho; subst hr; rfl

/-- Witness for C8 at a concrete oracle and input. -/
theorem c8_deterministic_witness :
    process_call oAllParseFail "hi" = process_call oAllParseFail "hi" :=
  c8_deterministic oAllParseFail oAllParseFail "hi" "hi" rfl rfl

/-- C3 (counterexample): a summarization response that is a syntactically
valid but empty JSON object — every documented field missing — decodes to
the per-field `.get` defaults, which is not the documented fallback
summary; so "missing fields" do not produce the stage fallback record. -/
theorem c3_counterexample :
    SummarizationAgent.process (some (.obj [])) =
      { key_points := ["No key points extracted"]
        customer_issue := "Not identified"
        resolution := "Not specified"
        sentiment := .neutral
        category := .general
        action_items := [] } ∧
    SummarizationAgent.process (some (.obj [])) ≠ SummarizationAgent.fallback := by
  refine ⟨rfl, ?_⟩
  decide

/-- C3 (amended): every model response whose decoding raises yields
exactly the documented fallback record of its stage, and (the embedding
being a function of the response) identically so across repeated
failures.  For intake and routing, whose `try` blocks only parse and
`.get` fields, the raising responses are exactly those with no
underlying dict (`resp.bind asObj = none`: malformed JSON or a non-dict
value); for summarization and quality scoring the raising responses are
exactly those on which the decode chain fails (malformed JSON, a
non-dict value, or field values failing enum, type or range
validation, i.e. `decode resp = none`).  A parse that succeeds with
missing fields takes the per-field-default path instead. -/
theorem c3_amended_parse_failure_gives_fallback :
    (∀ (raw : String) (resp : Option Json), resp.bind asObj = none →
      CallIntakeAgent.process raw resp =
        { is_valid := .bool true
          reason := .str "Transcript accepted"
          estimated_speakers := .num 2
          transcript := raw }) ∧
    (∀ resp : Option Json, SummarizationAgent.decode resp = none →
      SummarizationAgent.process resp = SummarizationAgent.fallback) ∧
    (∀ resp : Option Json, QualityScoringAgent.decode resp = none →
      QualityScoringAgent.process resp = QualityScoringAgent.fallback) ∧
    (∀ (sm : CallSummary) (resp : Option Json), resp.bind asObj = none →
      RoutingAgent.process sm resp =
        (.arr [.str "Review call quality", .str "Follow up with customer"],
         .arr [.str sm.category.value, .str sm.sentiment.value,
               .str "needs_review"])) := by
  refine ⟨?_, ?_, ?_, ?_⟩
  · intro raw resp h
    match resp with
    | none => rfl
    | some .null => rfl
    | some (.bool b) => rfl
    | some (.num q) => rfl
    | some (.str s) => rfl
    | some (.arr xs) => rfl
    | some (.obj fs) => exact absurd h (by simp [asObj])
  · intro resp h
    unfold SummarizationAgent.process
    rw [h]
    rfl
  · intro resp h
    unfold QualityScoringAgent.process
    rw [h]
    rfl
  · intro sm resp h
    match resp with
    | none => rfl
    | some .null => rfl
    | some (.bool b) => rfl
    | some (.num q) => rfl
    | some (.str s) => rfl
    | some (.arr xs) => rfl
    | some (.obj fs) => exact absurd h (by simp [asObj])

/-- Witness for C3 (amended), exercising each raise mode: a non-dict
intake response, a summarization field failing enum validation, a quality
score failing the pydantic range bounds, and a non-dict routing
response. -/
theorem c3_amended_witness :
    CallIntakeAgent.process "t" (some (.str "oops")) =
      { is_valid := .bool true
        reason := .str "Transcript accepted"
        estimated_speakers := .num 2
        transcript := "t" } ∧
    SummarizationAgent.process (some (.obj [("sentiment", .num 5)])) =
      SummarizationAgent.fallback ∧
    QualityScoringAgent.process (some (.obj [("empathy", .num 99)])) =
      QualityScoringAgent.fallback ∧
    RoutingAgent.process SummarizationAgent.fallback (some (.num 3)) =
      (.arr [.str "Review call quality", .str "Follow up with customer"],
       .arr [.str SummarizationAgent.fallback.category.value,
             .str SummarizationAgent.fallback.sentiment.value,
             .str "needs_review"]) := by
  refine ⟨?_, ?_, ?_, ?_⟩
  · exact c3_amended_parse_failure_gives_fallback.1 "t" (some (.str "oops")) rfl
  · exact c3_amended_parse_failure_gives_fallback.2.1
      (some (.obj [("sentiment", .num 5)])) (by decide)
  · exact c3_amended_parse_failure_gives_fallback.2.2.1
      (some (.obj [("empathy", .num 99)])) (by decide)
  · exact c3_amended_parse_failure_gives_fallback.2.2.2
      SummarizationAgent.fallback (some (.num 3)) rfl

/-- Bounds extracted from a successful pydantic `QAScore` construction. -/
theorem QAScore.mk?_bounds {e p r c o : ℚ} {q : QAScore}
    (h : QAScore.mk? e p r c o = some q) :
    0 ≤ q.empathy ∧ q.empathy ≤ 10 ∧
    0 ≤ q.professionalism ∧ q.professionalism ≤ 10 ∧
    0 ≤ q.resolution ∧ q.resolution ≤ 10 ∧
    0 ≤ q.compliance ∧ q.compliance ≤ 10 ∧
    0 ≤ q.overall ∧ q.overall ≤ 10 := by
  unfold QAScore.mk? at h
  split at h
  · next hb =>
    cases h
    exact hb
  · cases h

/-- C5: every score record the quality stage produces — decoded or
fallback — has all five fields in the closed interval `[0, 10]`; an
out-of-range model value makes the pydantic constructor raise, which
lands on the all-sevens fallback. -/
theorem c5_qa_scores_in_range (resp : Option Json) :
    0 ≤ (QualityScoringAgent.process resp).empathy ∧
    (QualityScoringAgent.process resp).empathy ≤ 10 ∧
    0 ≤ (QualityScoringAgent.process resp).professionalism ∧
    (QualityScoringAgent.process resp).professionalism ≤ 10 ∧
    0 ≤ (QualityScoringAgent.process resp).resolution ∧
    (QualityScoringAgent.process resp).resolution ≤ 10 ∧
    0 ≤ (QualityScoringAgent.process resp).compliance ∧
    (QualityScoringAgent.process resp).compliance ≤ 10 ∧
    0 ≤ (QualityScoringAgent.process resp).overall ∧
    (QualityScoringAgent.process resp).overall ≤ 10 := by
  unfold QualityScoringAgent.process
  cases hd : QualityScoringAgent.decode resp with
  | none =>
    simp only [Option.getD]
    norm_num [QualityScoringAgent.fallback]
  | some q =>
    simp only [Option.getD]
    simp only [QualityScoringAgent.decode, Option.bind_eq_some] at hd
    obtain ⟨j, hj, fs, hfs, e, he, p, hp, r, hr, c, hc, o, ho, hmk⟩ := hd
    exact QAScore.mk?_bounds hmk

/-- A truthy error value makes `process_call` return it as the error dict. -/
theorem finalize_of_truthy {r : CallState} {j : Json} (h : r.error = some j)
    (ht : truthy j = true) : finalize r = .error j := by
  unfold finalize
  rw [h]
  simp [errTruthy, ht]

/-- With no truthy error and no transcript, building `CallAnalysis` fails. -/
theorem finalize_no_transcript {r : CallState} (he : errTruthy r.error = false)
    (ht : r.transcript = none) :
    finalize r = .error (.str "Failed to build analysis: validation error") := by
  unfold finalize
  rw [he, ht]
  simp

/-- C6: `process_call` returns either an error dict or a complete
analysis; when an analysis is returned, each of its five parts is exactly
the value the corresponding stage stored in the final pipeline state, so
no partially constructed analysis can be returned. -/
theorem c6_complete_analysis_or_error (o : Oracle) (raw : String) :
    (∃ e, process_call o raw = .error e) ∨
    (∃ a : CallAnalysis, process_call o raw = .analysis a ∧
      (runPipeline o raw).transcript = some a.transcript ∧
      (runPipeline o raw).summary = some a.summary ∧
      (runPipeline o raw).qa_scores = some a.qa_scores ∧
      strList? (runPipeline o raw).recommendations = some a.recommendations ∧
      strList? (runPipeline o raw).tags = some a.tags) := by
  unfold process_call finalize
  split
  · exact .inl ⟨_, rfl⟩
  · split
    · next t sm q recs tgs ht hs hq hr htg =>
      exact .inr ⟨⟨t, sm, q, recs, tgs⟩, rfl, ht, hs, hq, hr, htg⟩
    · exact .inl ⟨_, rfl⟩

/-- C1 (counterexample): with a valid intake and a summarization call that
raises "boom", the pipeline does not terminate with the summarization
message — the quality and routing nodes still run, fail on the missing
summary, and overwrite the error, so the returned error record carries
the message of the routing stage instead. -/
theorem c1_counterexample :
    process_call oSummarizeRaises "call" =
      .error (.str "Routing error: NoneType object has no attribute category") ∧
    ("Routing error: NoneType object has no attribute category" : String) ≠
      "Summarization error: boom" := by
  refine ⟨rfl, ?_⟩
  decide

/-- C1 (amended): a post-intake stage that raises has its stage-qualified
message recorded, but the pipeline does not halt: the remaining nodes run
unconditionally.  A summarization failure leaves `summary` unset, so the
quality and routing nodes fail in turn and the final error record carries
the message of the routing stage; likewise for a quality-scoring failure.  Only
a failure in the last (routing) stage surfaces its own wrapped message
`"Routing error: <message>"`. -/
theorem c1_amended_pipeline_continues (qo ro : LLMOutcome)
    (sresp qresp : Option Json) (raw msg : String) :
    (runPipeline ⟨.returns none, .raises msg, qo, ro⟩ raw).error =
      some (.str "Routing error: NoneType object has no attribute category") ∧
    (runPipeline ⟨.returns none, .raises msg, qo, ro⟩ raw).summary = none ∧
    process_call ⟨.returns none, .raises msg, qo, ro⟩ raw =
      .error (.str "Routing error: NoneType object has no attribute category") ∧
    process_call ⟨.returns none, .returns sresp, .raises msg, ro⟩ raw =
      .error (.str "Routing error: NoneType object has no attribute empathy") ∧
    process_call ⟨.returns none, .returns sresp, .returns qresp, .raises msg⟩ raw =
      .error (.str ("Routing error: " ++ msg)) := by
  refine ⟨rfl, rfl, rfl, rfl, ?_⟩
  exact finalize_of_truthy rfl (truthy_str_append (by decide) msg)

/-- C2 (counterexample): an intake response judging the input invalid with
an empty reason string: the pipeline still short-circuits, but because the
empty reason is falsy, `process_call` does not surface it — the error
record instead carries the analysis-build failure message, not the
reason. -/
theorem c2_counterexample :
    (runPipeline oEmptyReason "call").intake_data.map IntakeData.is_valid =
      some (.bool false) ∧
    (runPipeline oEmptyReason "call").error = some (.str "") ∧
    process_call oEmptyReason "call" =
      .error (.str "Failed to build analysis: validation error") ∧
    ("Failed to build analysis: validation error" : String) ≠ "" := by
  refine ⟨rfl, rfl, rfl, ?_⟩
  decide

/-- C2 (amended): when intake judges the input invalid (a falsy
`is_valid`), no later stage runs — the final state is untouched beyond the
intake node — and `process_call` returns an error record; the record
carries the reason value exactly when the reason is truthy (in particular
any non-empty reason string), while a falsy reason (such as the empty
string) yields an error record carrying the analysis-build failure
message instead. -/
theorem c2_amended_invalid_intake_short_circuits (so qo ro : LLMOutcome)
    (raw : String) (resp : Option Json)
    (hv : truthy (CallIntakeAgent.process raw resp).is_valid = false) :
    (runPipeline ⟨.returns resp, so, qo, ro⟩ raw).transcript = none ∧
    (runPipeline ⟨.returns resp, so, qo, ro⟩ raw).summary = none ∧
    (runPipeline ⟨.returns resp, so, qo, ro⟩ raw).qa_scores = none ∧
    (∃ e, process_call ⟨.returns resp, so, qo, ro⟩ raw = .error e) ∧
    (truthy (CallIntakeAgent.process raw resp).reason = true →
      process_call ⟨.returns resp, so, qo, ro⟩ raw =
        .error (CallIntakeAgent.process raw resp).reason) := by
  have hrun : runPipeline ⟨.returns resp, so, qo, ro⟩ raw =
      { raw_input := raw
        intake_data := some (CallIntakeAgent.process raw resp)
        transcript := none
        summary := none
        qa_scores := none
        recommendations := .arr []
        tags := .arr []
        error := some (CallIntakeAgent.process raw resp).reason } := by
    simp [runPipeline, intake_node, intakeContinue, initState, hv]
  refine ⟨by rw [hrun], by rw [hrun], by rw [hrun], ?_, ?_⟩
  · cases htr : truthy (CallIntakeAgent.process raw resp).reason with
    | true =>
      exact ⟨_, finalize_of_truthy (by rw [hrun]) htr⟩
    | false =>
      refine ⟨_, finalize_no_transcript ?_ (by rw [hrun])⟩
      rw [hrun]
      simpa [errTruthy] using htr
  · intro htr
    exact finalize_of_truthy (by rw [hrun]) htr

/-- Witness for C2 (amended) at a concrete rejecting oracle. -/
theorem c2_amended_witness :
    (runPipeline oRejectNope "call").transcript = none ∧
    process_call oRejectNope "call" = .error (.str "nope") := by
  have h := c2_amended_invalid_intake_short_circuits (.returns none) (.returns none)
    (.returns none) "call"
    (some (.obj [("is_valid", .bool false), ("reason", .str "nope")])) rfl
  exact ⟨h.1, h.2.2.2.2 rfl⟩

/-- A state whose error field is absent or truthy; the four post-intake
nodes preserve this, because every message they write is a non-empty
stage-qualified string. -/
def okErr (s : CallState) : Prop := s.error = none ∨ errTruthy s.error = true

/-- A non-empty string literal is truthy. -/
theorem truthy_str_of_ne {c : String} (h : c ≠ "") : truthy (.str c) = true := by
  simp [truthy, h]

/-- The transcription node never erases the error field; when it writes
one, the message is truthy. -/
theorem okErr_transcription {s : CallState} (h : okErr s) :
    okErr (transcription_node s) := by
  unfold transcription_node
  cases hid : s.intake_data with
  | none =>
    right
    exact truthy_str_of_ne (c := "Transcription error: KeyError transcript") (by decide)
  | some d =>
    cases hp : TranscriptionAgent.process d with
    | some t => simpa only [hp] using h
    | none =>
      simp only [hp]
      right
      exact truthy_str_of_ne (c := "Transcription error: validation error") (by decide)

/-- The summarization node never erases the error field. -/
theorem okErr_summarization {o : Oracle} {s : CallState} (h : okErr s) :
    okErr (summarization_node o s) := by
  unfold summarization_node
  cases hid : s.transcript with
  | none =>
    right
    exact truthy_str_of_ne
      (c := "Summarization error: NoneType object has no attribute text") (by decide)
  | some t =>
    cases o.summarize with
    | raises m =>
      right
      exact truthy_str_append (p := "Summarization error: ") (by decide) m
    | returns resp => exact h

/-- The quality-scoring node never erases the error field. -/
theorem okErr_quality {o : Oracle} {s : CallState} (h : okErr s) :
    okErr (quality_scoring_node o s) := by
  unfold quality_scoring_node
  cases ht : s.transcript with
  | none =>
    right
    exact truthy_str_of_ne
      (c := "Quality scoring error: NoneType object has no attribute text") (by decide)
  | some t =>
    cases hs : s.summary with
    | none =>
      right
      exact truthy_str_of_ne
        (c := "Quality scoring error: NoneType object has no attribute customer_issue")
        (by decide)
    | some sm =>
      cases o.quality with
      | raises m =>
        right
        exact truthy_str_append (p := "Quality scoring error: ") (by decide) m
      | returns resp => exact h

/-- The routing node never erases the error field. -/
theorem okErr_routing {o : Oracle} {s : CallState} (h : okErr s) :
    okErr (routing_node o s) := by
  unfold routing_node
  cases hs : s.summary with
  | none =>
    right
    exact truthy_str_of_ne
      (c := "Routing error: NoneType object has no attribute category") (by decide)
  | some sm =>
    cases hq : s.qa_scores with
    | none =>
      right
      exact truthy_str_of_ne
        (c := "Routing error: NoneType object has no attribute empathy") (by decide)
    | some q =>
      cases o.route with
      | raises m =>
        right
        exact truthy_str_append (p := "Routing error: ") (by decide) m
      | returns resp => exact h

/-- Every run ends with an absent-or-truthy error, or stopped at intake
with no transcript (the one way a falsy error — an intake rejection with
a falsy reason — can stand). -/
theorem run_okErr_or_no_transcript (o : Oracle) (raw : String) :
    okErr (runPipeline o raw) ∨ (runPipeline o raw).transcript = none := by
  unfold runPipeline
  cases hi : o.intake with
  | raises m =>
    right
    simp [intake_node, intakeContinue, initState, hi]
  | returns resp =>
    cases hv : truthy (CallIntakeAgent.process raw resp).is_valid with
    | false =>
      right
      simp [intake_node, intakeContinue, initState, hi, hv]
    | true =>
      left
      simp only [intake_node, intakeContinue, initState, hi, hv, if_true]
      exact okErr_routing (okErr_quality (okErr_summarization
        (okErr_transcription (Or.inl rfl))))

/-- The intake node never assigns `None` to a present error field. -/
theorem error_isSome_intake {o : Oracle} {s : CallState}
    (h : s.error.isSome = true) : (intake_node o s).error.isSome = true := by
  unfold intake_node
  cases o.intake with
  | raises m => rfl
  | returns resp =>
    dsimp only
    split
    · exact h
    · rfl

/-- The transcription node never assigns `None` to a present error field. -/
theorem error_isSome_transcription {s : CallState}
    (h : s.error.isSome = true) : (transcription_node s).error.isSome = true := by
  unfold transcription_node
  cases hid : s.intake_data with
  | none => rfl
  | some d =>
    cases hp : TranscriptionAgent.process d with
    | some t => simp [hp, h]
    | none => simp [hp]

/-- The summarization node never assigns `None` to a present error field. -/
theorem error_isSome_summarization {o : Oracle} {s : CallState}
    (h : s.error.isSome = true) : (summarization_node o s).error.isSome = true := by
  unfold summarization_node
  cases ht : s.transcript with
  | none => rfl
  | some t =>
    cases o.summarize with
    | raises m => rfl
    | returns resp => simp [h]

/-- The quality node never assigns `None` to a present error field. -/
theorem error_isSome_quality {o : Oracle} {s : CallState}
    (h : s.error.isSome = true) : (quality_scoring_node o s).error.isSome = true := by
  unfold quality_scoring_node
  cases ht : s.transcript with
  | none => rfl
  | some t =>
    cases hs : s.summary with
    | none => rfl
    | some sm =>
      cases o.quality with
      | raises m => rfl
      | returns resp => simp [h]

/-- The routing node never assigns `None` to a present error field. -/
theorem error_isSome_routing {o : Oracle} {s : CallState}
    (h : s.error.isSome = true) : (routing_node o s).error.isSome = true := by
  unfold routing_node
  cases hs : s.summary with
  | none => rfl
  | some sm =>
    cases hq : s.qa_scores with
    | none => rfl
    | some q =>
      cases o.route with
      | raises m => rfl
      | returns resp => simp [h]

/-- C10: the error field is write-only — each of the five node functions
maps a state with a present error to a state with a present error (no node
ever resets it to `None`) — and every run whose final state carries an
error ends with `process_call` returning an error record. -/
theorem c10_error_write_only (o : Oracle) (raw : String) (s : CallState) :
    (s.error.isSome = true →
      (intake_node o s).error.isSome = true ∧
      (transcription_node s).error.isSome = true ∧
      (summarization_node o s).error.isSome = true ∧
      (quality_scoring_node o s).error.isSome = true ∧
      (routing_node o s).error.isSome = true) ∧
    ((runPipeline o raw).error ≠ none →
      ∃ e, process_call o raw = .error e) := by
  constructor
  · intro h
    exact ⟨error_isSome_intake h, error_isSome_transcription h,
      error_isSome_summarization h, error_isSome_quality h,
      error_isSome_routing h⟩
  · intro hne
    rcases run_okErr_or_no_transcript o raw with hok | htr
    · rcases hok with hnone | htru
      · exact absurd hnone hne
      · rcases hE : (runPipeline o raw).error with _ | j
        · exact absurd hE hne
        · refine ⟨j, finalize_of_truthy hE ?_⟩
          rw [hE] at htru
          exact htru
    · by_cases hET : errTruthy (runPipeline o raw).error = true
      · rcases hE : (runPipeline o raw).error with _ | j
        · exact absurd hE hne
        · refine ⟨j, finalize_of_truthy hE ?_⟩
          rw [hE] at hET
          exact hET
      · exact ⟨_, finalize_no_transcript (Bool.not_eq_true _ ▸ hET) htr⟩

/-- Witness for C10 at a concrete state with an error already present and
a run whose intake call raises. -/
theorem c10_error_write_only_witness :
    (intake_node oIntakeRaises
      { initState "c" with error := some (.str "x") }).error.isSome = true ∧
    ∃ e, process_call oIntakeRaises "c" = .error e := by
  have h := c10_error_write_only oIntakeRaises "c"
    { initState "c" with error := some (.str "x") }
  refine ⟨(h.1 rfl).1, h.2 ?_⟩
  intro hc
  rw [show (runPipeline oIntakeRaises "c").error =
      some (.str "Intake error: rate limit") from rfl] at hc
  exact Option.noConfusion hc
